import Mathlib

/-!
Shallow embedding of the camera-geometry and render-orchestration core of
`miris_render_server_ext` (files `camera_utils.py` and `service.py`).

Modelling conventions:
* Python/C++ doubles are modelled as exact rationals (`ℚ`); the spec itself
  states its numeric properties "within floating-point tolerance".
* `Gf.Matrix4d` is `Matrix (Fin 4) (Fin 4) ℚ` in the USD row-vector
  convention (a point `p` transforms as `p * M`, composition reads left to
  right); `*` is the ordinary matrix product, exactly as in `Gf`.
* Python code that can raise is embedded as `Except ServiceError _`.  The
  error constructors are named after the taxonomy of the specification; each
  constructor documents which concrete Python exception of the source it
  stands for and carries that exception's message text.
* External collaborators (the `pxr` scene graph, `omni.replicator`) are
  supplied as explicit data: the camera prim state is a structure of the
  attributes the code reads, the frustum projection computation is a function
  parameter, and the writer/renderer results are fields of a `RenderEnv`.
-/

/-- Gf.Matrix4d: a 4x4 matrix of doubles, modelled over ℚ. -/
abbrev M4 := Matrix (Fin 4) (Fin 4) ℚ

/-- Stage up-axis token as returned by `UsdGeom.GetStageUpAxis` (USD allows
exactly the tokens `Y` and `Z`). -/
inductive UpAxis where
  | y
  | z
deriving DecidableEq, Repr

/-- Error taxonomy of the specification, mapped onto the concrete Python
exceptions the source raises:
* `preconditionError` — the `RuntimeError` raised in `render` when no stage
  is open (`service.py`, line 145);
* `invalidInput` — the `ZeroDivisionError` Python raises inside
  `conform_camera_vertical_aperture` when a divisor is `0.0`
  (`camera_utils.py`, lines 8 and 10);
* `unrecognizedValue` — rejection of a renderer value: pydantic refuses any
  string that is not one of the two enum values, and the final `RuntimeError`
  branch of `set_renderer` (`service.py`, line 80) carries the shown message;
* `artifactMissing` — the `AssertionError` of the artifact loop
  (`service.py`, line 187), message `Expected <path> to exist`;
* `invalidCameraPrim` — the `AssertionError` of the camera-prim lookup
  (`service.py`, line 195). -/
inductive ServiceError where
  | preconditionError (msg : String)
  | invalidInput (msg : String)
  | unrecognizedValue (msg : String)
  | artifactMissing (msg : String)
  | invalidCameraPrim (msg : String)
deriving DecidableEq, Repr

/-- State of a `UsdGeom.Camera` prim: exactly the attributes
`camera_utils.py` reads (focal length, apertures, clipping range), together
with the two collaborator-computed quantities that depend only on the prim
and its stage — the local-to-world transform
(`UsdGeom.Xformable(...).ComputeLocalToWorldTransform(Usd.TimeCode.Default())`)
and the stage up axis (`UsdGeom.GetStageUpAxis(stage)`). -/
structure UsdCamera where
  focalLength : ℚ
  horizontalAperture : ℚ
  verticalAperture : ℚ
  nearClip : ℚ
  farClip : ℚ
  localToWorld : M4
  stageUpAxis : UpAxis

/-- Translation of `conform_camera_vertical_aperture(camera, image_resolution)`
(`camera_utils.py`, lines 7-11):

    aspect_ratio = image_resolution[0] / image_resolution[1]
    horizontal_aperture = camera.GetHorizontalApertureAttr().Get()
    conformed_vertical_aperature = horizontal_aperture / aspect_ratio
    camera.GetVerticalApertureAttr().Set(conformed_vertical_aperature)

Python float division raises `ZeroDivisionError` whenever the divisor is
zero, so the embedding fails when `image_resolution[1] = 0` and also when the
computed aspect ratio is `0` (which happens exactly when
`image_resolution[0] = 0`).  On success it returns the camera with its
vertical aperture overwritten — the `Set` call on the prim. -/
def conform_camera_vertical_aperture (camera : UsdCamera)
    (image_resolution : ℚ × ℚ) : Except ServiceError UsdCamera :=
  if image_resolution.2 = 0 then
    Except.error (ServiceError.invalidInput "float division by zero")
  else
    let aspect := image_resolution.1 / image_resolution.2
    if aspect = 0 then
      Except.error (ServiceError.invalidInput "float division by zero")
    else
      Except.ok { camera with verticalAperture := camera.horizontalAperture / aspect }

/-- The dataclass `CameraInfo` of `camera_utils.py`: five intrinsic scalars
and three 4x4 matrices flattened to 16-element row-major tuples. -/
structure CameraInfo where
  focal_length : ℚ
  horizontal_aperture : ℚ
  vertical_aperture : ℚ
  near_clip : ℚ
  far_clip : ℚ
  world_to_camera : List ℚ
  world_to_ndc : List ℚ
  projection_matrix : List ℚ
deriving DecidableEq, Repr

/-- Translation of `CameraInfo.gf_matrix_to_tuple`: iterating a
`Gf.Matrix4d` yields its rows, so
`tuple(value for row in matrix for value in row)` is the row-major
flattening. -/
def CameraInfo.gf_matrix_to_tuple (m : M4) : List ℚ :=
  [m 0 0, m 0 1, m 0 2, m 0 3,
   m 1 0, m 1 1, m 1 2, m 1 3,
   m 2 0, m 2 1, m 2 2, m 2 3,
   m 3 0, m 3 1, m 3 2, m 3 3]

/-- The fixed correction matrix of `from_usd_camera`:

    rotation = Gf.Rotation(Gf.Vec3d(1, 0, 0), -90)
    R = Gf.Matrix4d().SetRotate(rotation)

that is, the rotation about the X axis by −90 degrees in the row-vector
convention (`cos(−90°) = 0`, `sin(−90°) = −1`, both exact); it maps the Z
axis to the Y axis. -/
def rotXNeg90 : M4 :=
  !![1, 0,  0, 0;
     0, 0, -1, 0;
     0, 1,  0, 0;
     0, 0,  0, 1]

/-- Model of `Gf.Matrix4d.GetInverse()`: the matrix inverse, written with the
explicit adjugate formula so that it is executable.  (On a singular input
`Gf` returns a `FLT_MAX`-scaled identity; every theorem that touches an
inverse therefore assumes a nonzero determinant, under which this model
agrees with `Gf`.) -/
def gfGetInverse (m : M4) : M4 :=
  m.det⁻¹ • m.adjugate

/-- The up-axis branch of `from_usd_camera` (`camera_utils.py`, lines 66-67):

    if up_axis == UsdGeom.Tokens.z:
        camera_to_world_matrix = camera_to_world_matrix * R

i.e. the local-to-world transform is right-multiplied by `rotXNeg90` exactly
when the stage is Z-up. -/
def correctedCameraToWorld (camera : UsdCamera) : M4 :=
  if camera.stageUpAxis = UpAxis.z then camera.localToWorld * rotXNeg90
  else camera.localToWorld

/-- Translation of `CameraInfo.from_usd_camera(camera)` (`camera_utils.py`,
lines 52-80).  The collaborator call
`camera.GetCamera().frustum.ComputeProjectionMatrix()` is the function
parameter `computeProjectionMatrix` (the stub the spec asks tests to hold
fixed); everything else the method reads is a field of `UsdCamera`. -/
def CameraInfo.from_usd_camera (computeProjectionMatrix : UsdCamera → M4)
    (camera : UsdCamera) : CameraInfo :=
  let projection := computeProjectionMatrix camera
  let camera_to_world_matrix := correctedCameraToWorld camera
  let world_to_camera_matrix := gfGetInverse camera_to_world_matrix
  let world_to_ndc := world_to_camera_matrix * projection
  { focal_length := camera.focalLength
    near_clip := camera.nearClip
    far_clip := camera.farClip
    horizontal_aperture := camera.horizontalAperture
    vertical_aperture := camera.verticalAperture
    projection_matrix := CameraInfo.gf_matrix_to_tuple projection
    world_to_camera := CameraInfo.gf_matrix_to_tuple world_to_camera_matrix
    world_to_ndc := CameraInfo.gf_matrix_to_tuple world_to_ndc }

/-- Camera resolution as the spec describes it (§4.1) and as `render`
performs it (`service.py`, lines 196-197): aperture conformance followed by
`CameraInfo` extraction, returning both the mutated camera prim state and
the snapshot. -/
def resolve (computeProjectionMatrix : UsdCamera → M4) (camera : UsdCamera)
    (image_resolution : ℚ × ℚ) : Except ServiceError (UsdCamera × CameraInfo) :=
  match conform_camera_vertical_aperture camera image_resolution with
  | Except.error e => Except.error e
  | Except.ok c1 =>
      Except.ok (c1, CameraInfo.from_usd_camera computeProjectionMatrix c1)

/-- The enum `OmniverseRtxRenderer` of `service.py` (lines 56-58). -/
inductive OmniverseRtxRenderer where
  | Interactive
  | RealTime
deriving DecidableEq, Repr

/-- The string values of the enum members:
`Interactive = "omniverse_rtx_interactive"`,
`RealTime = "omniverse_rtx_realtime"`. -/
def OmniverseRtxRenderer.value : OmniverseRtxRenderer → String
  | OmniverseRtxRenderer.Interactive => "omniverse_rtx_interactive"
  | OmniverseRtxRenderer.RealTime => "omniverse_rtx_realtime"

/-- Pydantic coercion of the `renderer` field of `SetRendererRequestData`:
a request string is accepted exactly when it is the value of one of the enum
members, and is mapped to that member. -/
def parseRenderer (s : String) : Option OmniverseRtxRenderer :=
  if s = "omniverse_rtx_interactive" then some OmniverseRtxRenderer.Interactive
  else if s = "omniverse_rtx_realtime" then some OmniverseRtxRenderer.RealTime
  else none

/-- Renderer mode of the process, as set by the two `rep.settings` calls of
`set_renderer`: `set_render_pathtraced()` or `set_render_rtx_realtime()`.
This is the `active_renderer_mode` of the specification. -/
inductive RendererMode where
  | pathTraced
  | realTime
deriving DecidableEq, Repr

/-- Process-wide shared state (`ProcessState` of the specification):
the active stage held by the `omni.usd` context, and the renderer mode held
by the `rep.settings` module.  A stage is identified by the USD file it was
opened from. -/
structure ProcessState where
  activeStage : Option String
  activeRendererMode : RendererMode
deriving DecidableEq, Repr

/-- Translation of the body of the `set_renderer` endpoint (`service.py`,
lines 72-80): dispatch on the already-parsed enum member, setting the
process renderer mode, with the final `raise RuntimeError(f"Unknown
renderer: ...")` branch embedded as an error. -/
def set_renderer (renderer : OmniverseRtxRenderer) (st : ProcessState) :
    Except ServiceError ProcessState :=
  if renderer = OmniverseRtxRenderer.Interactive then
    Except.ok { st with activeRendererMode := RendererMode.pathTraced }
  else if renderer = OmniverseRtxRenderer.RealTime then
    Except.ok { st with activeRendererMode := RendererMode.realTime }
  else
    Except.error (ServiceError.unrecognizedValue
      ("Unknown renderer: " ++ renderer.value ++ ")"))

/-- The whole `set_renderer` operation as seen by a caller: pydantic first
coerces the raw string to an `OmniverseRtxRenderer` member (rejecting any
other value), then the endpoint body runs. -/
def set_renderer_endpoint (renderer : String) (st : ProcessState) :
    Except ServiceError ProcessState :=
  match parseRenderer renderer with
  | none => Except.error (ServiceError.unrecognizedValue renderer)
  | some r => set_renderer r st

/-- The pydantic model `RenderRequestData` of `service.py` (lines 84-120).
None of the fields carries a numeric constraint: in particular
`image_resolution` admits arbitrary float pairs (the model declares no
positivity bound). -/
structure RenderRequestData where
  camera_name : String
  camera_position : ℚ × ℚ × ℚ
  camera_rotation : ℚ × ℚ × ℚ
  camera_focal_length : ℚ
  camera_horizontal_aperture : ℚ
  image_resolution : ℚ × ℚ
deriving DecidableEq, Repr

/-- The pydantic model `RenderResponseData` of `service.py` (lines 123-131). -/
structure RenderResponseData where
  color_image_path : String
  depth_image_path : String
  depth_npy_path : String
  camera : CameraInfo
deriving DecidableEq, Repr

/-- Observable side effects `render` performs on the world outside the
request, in execution order: the two `rep.create` calls, the writer setup
and attachment, the suspension on the renderer, and the vertical-aperture
write that `conform_camera_vertical_aperture` makes to the camera prim. -/
inductive Effect where
  | createCamera (name : String)
  | createRenderProduct (name : String)
  | setupWriter (outputDir : String)
  | attachWriter
  | runUntilComplete
  | setVerticalAperture (value : ℚ)
deriving DecidableEq, Repr

/-- Results supplied by the collaborators a `render` call consumes:
`tmpDir` is what `tempfile.mkdtemp()` returned, `filesAfterRender` the set
of file paths present on disk once `rep.orchestrator.run_until_complete_async`
resumes, `createdCamera` the state of the camera prim that
`rep.create.camera` authored from the request (as looked up at
`service.py`, lines 190-194), and `cameraValid` whether that lookup yields a
valid `UsdGeom.Camera`; `computeProjectionMatrix` is the frustum projection
collaborator. -/
structure RenderEnv where
  tmpDir : String
  filesAfterRender : List String
  createdCamera : UsdCamera
  cameraValid : Bool
  computeProjectionMatrix : UsdCamera → M4

/-- Job output directory: `os.path.join(tmp_dir, f"output_{camera_name}")`. -/
def outputDirOf (env : RenderEnv) (req : RenderRequestData) : String :=
  env.tmpDir ++ "/output_" ++ req.camera_name

/-- Writer-convention path `os.path.join(output_dir, "rgb_0000.png")`. -/
def colorImagePathOf (env : RenderEnv) (req : RenderRequestData) : String :=
  outputDirOf env req ++ "/rgb_0000.png"

/-- Writer-convention path
`os.path.join(output_dir, "distance_to_image_plane_0000.png")`. -/
def depthImagePathOf (env : RenderEnv) (req : RenderRequestData) : String :=
  outputDirOf env req ++ "/distance_to_image_plane_0000.png"

/-- Writer-convention path
`os.path.join(output_dir, "distance_to_image_plane_0000.npy")`. -/
def depthNpyPathOf (env : RenderEnv) (req : RenderRequestData) : String :=
  outputDirOf env req ++ "/distance_to_image_plane_0000.npy"

/-- The first artifact the loop

    for file_path in (color_image_path, depth_image_path, depth_npy_path):
        assert os.path.isfile(file_path), f"Expected \x7bfile_path\x7d to exist"

fails on, or `none` when all three expected files exist. -/
def firstMissingArtifact (env : RenderEnv) (req : RenderRequestData) :
    Option String :=
  if colorImagePathOf env req ∈ env.filesAfterRender then
    if depthImagePathOf env req ∈ env.filesAfterRender then
      if depthNpyPathOf env req ∈ env.filesAfterRender then none
      else some (depthNpyPathOf env req)
    else some (depthImagePathOf env req)
  else some (colorImagePathOf env req)

/-- Translation of the `render` endpoint (`service.py`, lines 139-204),
returning the response or the error, paired with the list of side effects
performed, in order.  The steps, as in the source: precondition check on the
active stage; camera and render product creation; writer setup and
attachment; suspension until render completion; the three artifact
assertions in order; camera-prim lookup assertion; aperture conformance;
`CameraInfo` extraction; response assembly. -/
def render (env : RenderEnv) (st : ProcessState) (req : RenderRequestData) :
    Except ServiceError RenderResponseData × List Effect :=
  match st.activeStage with
  | none =>
      (Except.error (ServiceError.preconditionError
        "No active stage, please open a USD file via /open_stage"), [])
  | some _ =>
      let effects := [Effect.createCamera req.camera_name,
                      Effect.createRenderProduct req.camera_name,
                      Effect.setupWriter (outputDirOf env req),
                      Effect.attachWriter,
                      Effect.runUntilComplete]
      match firstMissingArtifact env req with
      | some p =>
          (Except.error (ServiceError.artifactMissing
            ("Expected " ++ p ++ " to exist")), effects)
      | none =>
          if env.cameraValid = false then
            (Except.error (ServiceError.invalidCameraPrim
              "Invalid camera prim"), effects)
          else
            match conform_camera_vertical_aperture env.createdCamera
                req.image_resolution with
            | Except.error e => (Except.error e, effects)
            | Except.ok c1 =>
                (Except.ok
                  { color_image_path := colorImagePathOf env req
                    depth_image_path := depthImagePathOf env req
                    depth_npy_path := depthNpyPathOf env req
                    camera := CameraInfo.from_usd_camera
                      env.computeProjectionMatrix c1 },
                 effects ++ [Effect.setVerticalAperture c1.verticalAperture])

/-! Concrete fixtures used by witnesses: a camera at the scenario defaults of
the request model (focal length 15, horizontal aperture 20), an identity
pose on a Y-up stage, and an identity projection stub. -/

/-- Identity projection collaborator stub. -/
def exampleProjection : UsdCamera → M4 := fun _ => 1

/-- Concrete camera prim state at the request-model defaults. -/
def exampleCamera : UsdCamera :=
  { focalLength := 15
    horizontalAperture := 20
    verticalAperture := 15
    nearClip := 1
    farClip := 1000000
    localToWorld := 1
    stageUpAxis := UpAxis.y }

/-- The camera after conforming at resolution (2, 1): the vertical aperture
becomes 20 / 2 = 10. -/
def exampleConformedCamera : UsdCamera :=
  { exampleCamera with verticalAperture := 10 }

/-- Row-major flattening of the identity matrix. -/
def identityTuple : List ℚ :=
  [1, 0, 0, 0,
   0, 1, 0, 0,
   0, 0, 1, 0,
   0, 0, 0, 1]

/-- The snapshot `from_usd_camera` extracts from `exampleConformedCamera`
under the identity projection stub. -/
def exampleCameraInfo : CameraInfo :=
  { focal_length := 15
    horizontal_aperture := 20
    vertical_aperture := 10
    near_clip := 1
    far_clip := 1000000
    world_to_camera := identityTuple
    world_to_ndc := identityTuple
    projection_matrix := identityTuple }

/-- Concrete render request at the scenario defaults. -/
def exampleRequest : RenderRequestData :=
  { camera_name := "camera_0"
    camera_position := (0, 0, 0)
    camera_rotation := (0, 0, 0)
    camera_focal_length := 15
    camera_horizontal_aperture := 20
    image_resolution := (1024, 1024) }

/-- Collaborator results for a run whose writer produced no files at all. -/
def exampleEnvNoFiles : RenderEnv :=
  { tmpDir := "/tmp/job"
    filesAfterRender := []
    createdCamera := exampleCamera
    cameraValid := true
    computeProjectionMatrix := exampleProjection }

/-- Process state before any `open_stage` call. -/
def exampleStateNoStage : ProcessState :=
  { activeStage := none
    activeRendererMode := RendererMode.realTime }

/-- Process state after `open_stage("/tmp/scene.usd")`. -/
def exampleStateWithStage : ProcessState :=
  { activeStage := some "/tmp/scene.usd"
    activeRendererMode := RendererMode.realTime }

/-! Helper lemmas shared by the claim theorems. -/

theorem gfGetInverse_eq_inv (m : M4) : gfGetInverse m = m⁻¹ := by
  rw [Matrix.inv_def, Ring.inverse_eq_inv, gfGetInverse]

@[simp]
theorem gfGetInverse_one : gfGetInverse (1 : M4) = 1 := by
  simp [gfGetInverse, Matrix.det_one, Matrix.adjugate_one]

theorem conform_error_shape (camera : UsdCamera) (res : ℚ × ℚ)
    (e : ServiceError)
    (h : conform_camera_vertical_aperture camera res = Except.error e) :
    e = ServiceError.invalidInput "float division by zero" := by
  simp only [conform_camera_vertical_aperture] at h
  split_ifs at h <;> simp_all

/-! Claim theorems. -/

/-- C6: when the target resolution's height is 0, aperture conformance
(computing aspect = w / h) fails with `InvalidInputError` (the
`ZeroDivisionError` of the Python division, in the taxonomy of the
specification). -/
theorem conform_zero_height_fails (camera : UsdCamera) (w : ℚ) :
    conform_camera_vertical_aperture camera (w, 0) =
      Except.error (ServiceError.invalidInput "float division by zero") := by
  simp [conform_camera_vertical_aperture]

/-- C1 (amended: the width must also be nonzero, since a zero width makes the
aspect ratio zero and the second division raises): for every target
resolution (w, h) with h ≠ 0 and w ≠ 0, `conform_camera_vertical_aperture`
sets the vertical aperture to `horizontal_aperture / (w / h)`, overwriting
the previous one, so that `vertical_aperture * w = horizontal_aperture * h`
while the horizontal aperture is unchanged, and the `CameraInfo` captured
afterwards reports this conformed vertical aperture. -/
theorem conform_aperture_relation (camera : UsdCamera) (w h : ℚ)
    (hw : w ≠ 0) (hh : h ≠ 0) :
    ∃ c1, conform_camera_vertical_aperture camera (w, h) = Except.ok c1 ∧
      c1.verticalAperture = camera.horizontalAperture / (w / h) ∧
      c1.verticalAperture * w = camera.horizontalAperture * h ∧
      c1.horizontalAperture = camera.horizontalAperture ∧
      ∀ f, (CameraInfo.from_usd_camera f c1).vertical_aperture =
        camera.horizontalAperture / (w / h) := by
  have haspect : w / h ≠ 0 := div_ne_zero hw hh
  refine ⟨{ camera with verticalAperture := camera.horizontalAperture / (w / h) },
    ?_, rfl, ?_, rfl, fun f => rfl⟩
  · simp [conform_camera_vertical_aperture, hh, haspect]
  · field_simp

/-- Witness for C1 at the concrete resolution (2, 1). -/
theorem conform_aperture_relation_witness :
    (2 : ℚ) ≠ 0 ∧ (1 : ℚ) ≠ 0 ∧
    (∃ c1, conform_camera_vertical_aperture exampleCamera (2, 1) = Except.ok c1 ∧
      c1.verticalAperture = exampleCamera.horizontalAperture / (2 / 1) ∧
      c1.verticalAperture * 2 = exampleCamera.horizontalAperture * 1 ∧
      c1.horizontalAperture = exampleCamera.horizontalAperture ∧
      ∀ f, (CameraInfo.from_usd_camera f c1).vertical_aperture =
        exampleCamera.horizontalAperture / (2 / 1)) :=
  ⟨by norm_num, by norm_num,
   conform_aperture_relation exampleCamera 2 1 (by norm_num) (by norm_num)⟩

/-- Counterexample for C1 as stated: at resolution (0, 1) the height is
nonzero, yet conformance raises (the aspect ratio is 0 and the division by
it fails) instead of setting the vertical aperture. -/
theorem conform_aperture_relation_counterexample :
    conform_camera_vertical_aperture exampleCamera (0, 1) =
      Except.error (ServiceError.invalidInput "float division by zero") := by
  norm_num [conform_camera_vertical_aperture]

/-- C10 (amended: the width must also be nonzero — at w = 0 the aspect ratio
is 0 and the division by it raises): aperture conformance performs no
positivity validation: for every resolution (w, h) with w ≠ 0 and h ≠ 0,
including negative or fractional components, it succeeds, and when the
aspect ratio is negative while the camera's horizontal aperture is positive,
the vertical aperture written to the camera is negative — even though the
data model declares both resolution components to be greater than zero. -/
theorem conform_no_positivity_validation (camera : UsdCamera) (w h : ℚ)
    (hw : w ≠ 0) (hh : h ≠ 0) :
    ∃ c1, conform_camera_vertical_aperture camera (w, h) = Except.ok c1 ∧
      (w / h < 0 → 0 < camera.horizontalAperture → c1.verticalAperture < 0) := by
  have haspect : w / h ≠ 0 := div_ne_zero hw hh
  refine ⟨{ camera with verticalAperture := camera.horizontalAperture / (w / h) },
    ?_, ?_⟩
  · simp [conform_camera_vertical_aperture, hh, haspect]
  · intro hneg hpos
    exact div_neg_of_pos_of_neg hpos hneg

/-- Witness for C10 at the negative-width resolution (-2, 1). -/
theorem conform_no_positivity_validation_witness :
    (-2 : ℚ) ≠ 0 ∧ (1 : ℚ) ≠ 0 ∧
    (∃ c1, conform_camera_vertical_aperture exampleCamera (-2, 1) = Except.ok c1 ∧
      ((-2 : ℚ) / 1 < 0 → 0 < exampleCamera.horizontalAperture →
        c1.verticalAperture < 0)) :=
  ⟨by norm_num, by norm_num,
   conform_no_positivity_validation exampleCamera (-2) 1 (by norm_num) (by norm_num)⟩

/-- Counterexample for C10 as stated: at resolution (0, 2) the height is
nonzero, yet conformance raises rather than succeeding. -/
theorem conform_no_positivity_validation_counterexample :
    conform_camera_vertical_aperture exampleCamera (0, 2) =
      Except.error (ServiceError.invalidInput "float division by zero") := by
  norm_num [conform_camera_vertical_aperture]

/-- Success characterization of aperture conformance, shared by several
claim proofs. -/
theorem conform_ok_iff (camera c1 : UsdCamera) (res : ℚ × ℚ) :
    conform_camera_vertical_aperture camera res = Except.ok c1 ↔
    (res.2 ≠ 0 ∧ res.1 / res.2 ≠ 0 ∧
     c1 = { camera with
       verticalAperture := camera.horizontalAperture / (res.1 / res.2) }) := by
  simp only [conform_camera_vertical_aperture]
  split_ifs with h2 ha <;> simp_all [eq_comm]

/-- C2: for every camera pose, the produced `CameraInfo` satisfies
`world_to_ndc = world_to_camera * projection_matrix` in that fixed order
(extrinsic first, then projection), where `world_to_camera` is the inverse
of the (possibly axis-corrected) camera-to-world transform — witnessed by
the two-sided product identities under the nonzero-determinant assumption —
and each matrix is flattened into the 16-element tuple row by row. -/
theorem camerainfo_ndc_composition (f : UsdCamera → M4) (camera : UsdCamera)
    (hdet : (correctedCameraToWorld camera).det ≠ 0) :
    (CameraInfo.from_usd_camera f camera).world_to_ndc =
      CameraInfo.gf_matrix_to_tuple
        (gfGetInverse (correctedCameraToWorld camera) * f camera) ∧
    (CameraInfo.from_usd_camera f camera).world_to_camera =
      CameraInfo.gf_matrix_to_tuple (gfGetInverse (correctedCameraToWorld camera)) ∧
    (CameraInfo.from_usd_camera f camera).projection_matrix =
      CameraInfo.gf_matrix_to_tuple (f camera) ∧
    gfGetInverse (correctedCameraToWorld camera) * correctedCameraToWorld camera = 1 ∧
    correctedCameraToWorld camera * gfGetInverse (correctedCameraToWorld camera) = 1 := by
  have hu : IsUnit (correctedCameraToWorld camera).det :=
    isUnit_iff_ne_zero.mpr hdet
  refine ⟨rfl, rfl, rfl, ?_, ?_⟩
  · rw [gfGetInverse_eq_inv]
    exact Matrix.nonsing_inv_mul _ hu
  · rw [gfGetInverse_eq_inv]
    exact Matrix.mul_nonsing_inv _ hu

/-- Witness for C2 at the identity-pose Y-up camera. -/
theorem camerainfo_ndc_composition_witness :
    (correctedCameraToWorld exampleCamera).det ≠ 0 ∧
    ((CameraInfo.from_usd_camera exampleProjection exampleCamera).world_to_ndc =
      CameraInfo.gf_matrix_to_tuple
        (gfGetInverse (correctedCameraToWorld exampleCamera) *
          exampleProjection exampleCamera) ∧
    (CameraInfo.from_usd_camera exampleProjection exampleCamera).world_to_camera =
      CameraInfo.gf_matrix_to_tuple
        (gfGetInverse (correctedCameraToWorld exampleCamera)) ∧
    (CameraInfo.from_usd_camera exampleProjection exampleCamera).projection_matrix =
      CameraInfo.gf_matrix_to_tuple (exampleProjection exampleCamera) ∧
    gfGetInverse (correctedCameraToWorld exampleCamera) *
      correctedCameraToWorld exampleCamera = 1 ∧
    correctedCameraToWorld exampleCamera *
      gfGetInverse (correctedCameraToWorld exampleCamera) = 1) := by
  have hdet : (correctedCameraToWorld exampleCamera).det ≠ 0 := by
    simp [correctedCameraToWorld, exampleCamera, Matrix.det_one]
  exact ⟨hdet, camerainfo_ndc_composition exampleProjection exampleCamera hdet⟩

/-- C3: for any camera, a Z-up stage corrects the local-to-world transform
by the fixed −90° X-axis rotation before inverting (the corrected matrix
equals `uncorrected * R_x(−90°)`), a Y-up stage applies no correction, and
consequently the `world_to_camera` the Z-up stage produces differs from the
Y-up one by exactly that fixed correction:
`w2c_z = R_x(−90°)⁻¹ * w2c_y`. -/
theorem upaxis_normalization (f : UsdCamera → M4) (camera : UsdCamera) :
    correctedCameraToWorld { camera with stageUpAxis := UpAxis.z } =
      camera.localToWorld * rotXNeg90 ∧
    correctedCameraToWorld { camera with stageUpAxis := UpAxis.y } =
      camera.localToWorld ∧
    (CameraInfo.from_usd_camera f
        { camera with stageUpAxis := UpAxis.z }).world_to_camera =
      CameraInfo.gf_matrix_to_tuple
        (gfGetInverse rotXNeg90 *
          gfGetInverse (correctedCameraToWorld
            { camera with stageUpAxis := UpAxis.y })) := by
  have hz : correctedCameraToWorld { camera with stageUpAxis := UpAxis.z } =
      camera.localToWorld * rotXNeg90 := by
    simp [correctedCameraToWorld]
  have hy : correctedCameraToWorld { camera with stageUpAxis := UpAxis.y } =
      camera.localToWorld := by
    simp [correctedCameraToWorld]
  refine ⟨hz, hy, ?_⟩
  show CameraInfo.gf_matrix_to_tuple
      (gfGetInverse (correctedCameraToWorld
        { camera with stageUpAxis := UpAxis.z })) = _
  rw [hz, hy]
  simp only [gfGetInverse_eq_inv]
  rw [Matrix.mul_inv_rev]

/-- C8: camera resolution is idempotent — if conformance followed by
extraction (with the projection collaborator held fixed) succeeds once,
running it again on the resulting camera yields the identical `CameraInfo`
and camera state, and the only change either invocation makes to the camera
prim is the vertical-aperture write. -/
theorem resolve_idempotent (f : UsdCamera → M4) (camera c1 : UsdCamera)
    (info : CameraInfo) (res : ℚ × ℚ)
    (h : resolve f camera res = Except.ok (c1, info)) :
    resolve f c1 res = Except.ok (c1, info) ∧
    c1 = { camera with verticalAperture := c1.verticalAperture } := by
  unfold resolve at h
  cases hc : conform_camera_vertical_aperture camera res with
  | error e => rw [hc] at h; simp at h
  | ok c2 =>
      rw [hc] at h
      simp only [Except.ok.injEq, Prod.mk.injEq] at h
      obtain ⟨rfl, rfl⟩ := h
      rw [conform_ok_iff] at hc
      obtain ⟨h2, ha, rfl⟩ := hc
      constructor
      · unfold resolve
        have hc2 : conform_camera_vertical_aperture
            { camera with verticalAperture :=
                camera.horizontalAperture / (res.1 / res.2) } res =
            Except.ok { camera with verticalAperture :=
                camera.horizontalAperture / (res.1 / res.2) } := by
          rw [conform_ok_iff]
          exact ⟨h2, ha, rfl⟩
        rw [hc2]
      · rfl

/-- Witness for C8: resolving the example camera at resolution (2, 1) twice. -/
theorem resolve_idempotent_witness :
    resolve exampleProjection exampleCamera (2, 1) =
      Except.ok (exampleConformedCamera, exampleCameraInfo) ∧
    (resolve exampleProjection exampleConformedCamera (2, 1) =
      Except.ok (exampleConformedCamera, exampleCameraInfo) ∧
     exampleConformedCamera =
       { exampleCamera with
         verticalAperture := exampleConformedCamera.verticalAperture }) := by
  have h : resolve exampleProjection exampleCamera (2, 1) =
      Except.ok (exampleConformedCamera, exampleCameraInfo) := by
    simp [resolve, conform_camera_vertical_aperture, exampleCamera,
      exampleConformedCamera, exampleProjection, exampleCameraInfo,
      CameraInfo.from_usd_camera, correctedCameraToWorld,
      CameraInfo.gf_matrix_to_tuple, identityTuple, Matrix.one_apply]
    norm_num
  exact ⟨h, resolve_idempotent _ _ _ _ _ h⟩

/-- Characterization of the artifact check, shared by the render claims:
no artifact is reported missing exactly when all three writer-convention
files exist, and a reported path is one of the three and is absent. -/
theorem firstMissingArtifact_spec (env : RenderEnv) (req : RenderRequestData) :
    (firstMissingArtifact env req = none ↔
      (colorImagePathOf env req ∈ env.filesAfterRender ∧
       depthImagePathOf env req ∈ env.filesAfterRender ∧
       depthNpyPathOf env req ∈ env.filesAfterRender)) ∧
    (∀ p, firstMissingArtifact env req = some p →
      (p = colorImagePathOf env req ∨ p = depthImagePathOf env req ∨
       p = depthNpyPathOf env req) ∧
      p ∉ env.filesAfterRender) := by
  constructor
  · unfold firstMissingArtifact
    split_ifs with hA hB hC <;> simp_all
  · intro p hp
    unfold firstMissingArtifact at hp
    split_ifs at hp with hA hB hC <;> simp_all

/-- C4: `render` called while no stage is open fails with
`PreconditionError` naming the absent stage, and performs no side effects:
the effect list is empty (no camera, no render product, no writer, no file,
no aperture write), and the process state is never written by `render` at
all. -/
theorem render_requires_stage (env : RenderEnv) (st : ProcessState)
    (req : RenderRequestData) (h : st.activeStage = none) :
    render env st req =
      (Except.error (ServiceError.preconditionError
        "No active stage, please open a USD file via /open_stage"), []) := by
  unfold render
  rw [h]

/-- Witness for C4 on the state before any `open_stage`. -/
theorem render_requires_stage_witness :
    exampleStateNoStage.activeStage = none ∧
    render exampleEnvNoFiles exampleStateNoStage exampleRequest =
      (Except.error (ServiceError.preconditionError
        "No active stage, please open a USD file via /open_stage"), []) :=
  ⟨rfl, render_requires_stage exampleEnvNoFiles exampleStateNoStage
    exampleRequest rfl⟩

/-- C5: with a stage open, `render` checks exactly the three
writer-convention paths `rgb_0000.png`, `distance_to_image_plane_0000.png`
and `distance_to_image_plane_0000.npy` under the job output directory; when
none is missing it never fails with `ArtifactMissingError`, and when one is
missing it fails with `ArtifactMissingError` naming that missing path, so no
partial response is returned. -/
theorem render_artifact_verification (env : RenderEnv) (st : ProcessState)
    (req : RenderRequestData) (stg : String)
    (h1 : st.activeStage = some stg) :
    (firstMissingArtifact env req = none ↔
      (colorImagePathOf env req ∈ env.filesAfterRender ∧
       depthImagePathOf env req ∈ env.filesAfterRender ∧
       depthNpyPathOf env req ∈ env.filesAfterRender)) ∧
    (∀ p, firstMissingArtifact env req = some p →
      (p = colorImagePathOf env req ∨ p = depthImagePathOf env req ∨
       p = depthNpyPathOf env req) ∧
      p ∉ env.filesAfterRender ∧
      (render env st req).1 =
        Except.error (ServiceError.artifactMissing
          ("Expected " ++ p ++ " to exist"))) ∧
    (firstMissingArtifact env req = none →
      ∀ e, (render env st req).1 ≠
        Except.error (ServiceError.artifactMissing e)) := by
  refine ⟨(firstMissingArtifact_spec env req).1, ?_, ?_⟩
  · intro p hp
    obtain ⟨hmem, habs⟩ := (firstMissingArtifact_spec env req).2 p hp
    refine ⟨hmem, habs, ?_⟩
    simp [render, h1, hp]
  · intro hnone e
    simp only [render, h1, hnone]
    by_cases hv : env.cameraValid = false
    · simp [hv]
    · rw [if_neg hv]
      cases hc : conform_camera_vertical_aperture env.createdCamera
          req.image_resolution with
      | error e2 =>
          have he2 := conform_error_shape _ _ _ hc
          subst he2
          simp
      | ok c1 => simp

/-- Witness for C5: a run whose writer produced no files fails naming the
first expected artifact path. -/
theorem render_artifact_verification_witness :
    exampleStateWithStage.activeStage = some "/tmp/scene.usd" ∧
    firstMissingArtifact exampleEnvNoFiles exampleRequest =
      some (colorImagePathOf exampleEnvNoFiles exampleRequest) ∧
    (render exampleEnvNoFiles exampleStateWithStage exampleRequest).1 =
      Except.error (ServiceError.artifactMissing
        ("Expected " ++ colorImagePathOf exampleEnvNoFiles exampleRequest ++
          " to exist")) :=
  ⟨rfl, rfl,
   ((render_artifact_verification exampleEnvNoFiles exampleStateWithStage
      exampleRequest "/tmp/scene.usd" rfl).2.1
      (colorImagePathOf exampleEnvNoFiles exampleRequest) rfl).2.2⟩

/-- C7 counterexample: the value "interactive" the claim says is accepted is
in fact rejected — the request model only admits the two enum values
"omniverse_rtx_interactive" and "omniverse_rtx_realtime". -/
theorem set_renderer_strings_counterexample :
    set_renderer_endpoint "interactive" exampleStateWithStage =
      Except.error (ServiceError.unrecognizedValue "interactive") := rfl

/-- C7 (amended: the two recognized values are the enum strings
"omniverse_rtx_interactive" and "omniverse_rtx_realtime", not "interactive"
and "realtime"): `set_renderer` accepts exactly those two values, setting
the process-wide renderer mode accordingly (path-traced for the interactive
member, real-time for the real-time member), fails with
`UnrecognizedValueError` for every other input value, and never touches the
active stage. -/
theorem set_renderer_recognized_values (s : String) (st : ProcessState) :
    (s = "omniverse_rtx_interactive" →
      set_renderer_endpoint s st =
        Except.ok { st with activeRendererMode := RendererMode.pathTraced }) ∧
    (s = "omniverse_rtx_realtime" →
      set_renderer_endpoint s st =
        Except.ok { st with activeRendererMode := RendererMode.realTime }) ∧
    (s ≠ "omniverse_rtx_interactive" → s ≠ "omniverse_rtx_realtime" →
      set_renderer_endpoint s st =
        Except.error (ServiceError.unrecognizedValue s)) ∧
    ((∃ st', set_renderer_endpoint s st = Except.ok st') ↔
      (s = "omniverse_rtx_interactive" ∨ s = "omniverse_rtx_realtime")) ∧
    (∀ st', set_renderer_endpoint s st = Except.ok st' →
      st'.activeStage = st.activeStage) := by
  by_cases h1 : s = "omniverse_rtx_interactive"
  · subst h1
    simp [set_renderer_endpoint, parseRenderer, set_renderer]
  · by_cases h2 : s = "omniverse_rtx_realtime"
    · subst h2
      simp [set_renderer_endpoint, parseRenderer, set_renderer, h1]
    · simp [set_renderer_endpoint, parseRenderer, h1, h2]

/-- Witness for C7 at the value "omniverse_rtx_realtime". -/
theorem set_renderer_recognized_values_witness :
    set_renderer_endpoint "omniverse_rtx_realtime" exampleStateWithStage =
      Except.ok { exampleStateWithStage with
        activeRendererMode := RendererMode.realTime } :=
  (set_renderer_recognized_values "omniverse_rtx_realtime"
    exampleStateWithStage).2.1 rfl

/-- C9: for every already-parsed renderer enum member — the only values the
request model admits — the final "Unknown renderer" branch of the endpoint
body is unreachable: `set_renderer` never raises and always returns
success. -/
theorem set_renderer_enum_total (renderer : OmniverseRtxRenderer)
    (st : ProcessState) :
    (∀ e, set_renderer renderer st ≠ Except.error e) ∧
    ∃ st', set_renderer renderer st = Except.ok st' := by
  cases renderer <;> simp [set_renderer]
